import Mathlib

/-!
Shallow embedding of `src/heygen_dashboard_connector.py`.

The module-level Python globals (`api_base_url`, `api_endpoints`,
`refresh_interval_seconds`) become a `Config` record; the mutable global
`dashboard_html` becomes an explicit cache value threaded through the
refresh-cycle and request-handler functions.  Python exceptions are modelled
with `Except String`; a JSON value is the inductive `Json`; Python floats
appear only in `usage_percentage` and are modelled as exact rationals (the
values produced are integral multiples of 1/10, on which CPython float
arithmetic, `round(_, 2)` and `str` agree with the exact decimal reading).
-/

/-- JSON values as produced by `response.json()` / `json.loads` (object keys
are unique in `json.loads` output, so an association list suffices). -/
inductive Json where
  | null
  | bool (b : Bool)
  | num (n : Int)
  | str (s : String)
  | arr (xs : List Json)
  | obj (kvs : List (String × Json))

/-- Configuration read from module globals in the source: base URL, the two
endpoints of `api_endpoints`, and `refresh_interval_seconds`. -/
structure Config where
  api_base_url : String
  list_videos_endpoint : String
  video_status_endpoint : String
  refresh_interval_seconds : Nat
deriving DecidableEq, Repr

/-- The module-level constants of the source file:
`api_base_url = "https://api.heygen.com"`, the two entries of
`api_endpoints`, and `refresh_interval_seconds = 5 * 60`. -/
def defaultConfig : Config where
  api_base_url := "https://api.heygen.com"
  list_videos_endpoint := "/v1/videos"
  video_status_endpoint := "/v1/video_status.get"
  refresh_interval_seconds := 5 * 60

/-- What `requests.get(url)` delivered to `fetch_videos`: either the call
itself raised (connection error, timeout, ...), or a response arrived with an
HTTP status code and a body whose JSON decoding (`response.json()`) either
fails or yields a value. -/
inductive RequestOutcome where
  | raised (msg : String)
  | response (status : Nat) (body : Except String Json)

/-- Model of `requests.Response.raise_for_status()`: per the documented
contract of the requests library it raises `HTTPError` exactly for 4xx and
5xx status codes (and on nothing else). -/
def raise_for_status (status : Nat) : Except String Unit :=
  if 400 ≤ status ∧ status < 600 then Except.error "HTTPError" else Except.ok ()

/-- Lookup in a Python dict modelled as a key-unique association list. -/
def dict_get (kvs : List (String × Json)) (k : String) : Option Json :=
  List.lookup k kvs

/-- Embedding of `fetch_videos` (lines 28-49).  Everything inside the `try`
block is the inner `Except` computation; the `except Exception` clause turns
any error into the return value `[]`.  The function itself is total: it never
propagates an exception. -/
def fetch_videos (r : RequestOutcome) : Json :=
  let attempt : Except String Json :=
    match r with
    | RequestOutcome.raised msg => Except.error msg
    | RequestOutcome.response status body => do
        let _ ← raise_for_status status
        let data ← body
        match data with
        | Json.obj kvs =>
            match dict_get kvs "videos" with
            | some v => pure v
            | none => pure (Json.arr [])
        | Json.arr xs => pure (Json.arr xs)
        | _ => pure (Json.arr [])
  match attempt with
  | Except.ok v => v
  | Except.error _ => Json.arr []

mutual

/-- CPython `repr` of a JSON-shaped value (used by `str` on lists/dicts).
String escaping inside `repr` is not needed by any claim and is omitted;
everything else follows CPython: `None`, `True`, `False`, decimal integers,
quoted strings, bracketed lists, braced dicts. -/
def py_repr : Json → String
  | Json.null => "None"
  | Json.bool true => "True"
  | Json.bool false => "False"
  | Json.num n => toString n
  | Json.str s => "\x27" ++ s ++ "\x27"
  | Json.arr xs => "[" ++ py_repr_items xs ++ "]"
  | Json.obj kvs => "\x7b" ++ py_repr_entries kvs ++ "\x7d"

def py_repr_items : List Json → String
  | [] => ""
  | [x] => py_repr x
  | x :: y :: rest => py_repr x ++ ", " ++ py_repr_items (y :: rest)

def py_repr_entries : List (String × Json) → String
  | [] => ""
  | [(k, v)] => "\x27" ++ k ++ "\x27: " ++ py_repr v
  | (k, v) :: kv :: rest =>
      "\x27" ++ k ++ "\x27: " ++ py_repr v ++ ", " ++ py_repr_entries (kv :: rest)

end

/-- CPython `str` of a JSON-shaped value: the string itself for strings,
`repr` rendering for everything else (`str(None) = "None"`, `str(3) = "3"`,
containers via `repr` of their elements). -/
def py_str : Json → String
  | Json.str s => s
  | v => py_repr v

/-- Python iteration `for v in x`: lists yield their elements, dicts yield
their keys, strings yield their characters (as 1-character strings); every
other value raises `TypeError`. -/
def py_iter : Json → Except String (List Json)
  | Json.arr xs => Except.ok xs
  | Json.obj kvs => Except.ok (kvs.map (fun kv => Json.str kv.1))
  | Json.str s => Except.ok (s.data.map (fun c => Json.str (String.singleton c)))
  | _ => Except.error "TypeError: object is not iterable"

/-- Python `v.get(key, default)`: defined on dicts (returning the stored
value, or the default when the key is absent); on any other value the
attribute access `.get` raises `AttributeError`. -/
def py_get (v : Json) (key : String) (dflt : Json) : Except String Json :=
  match v with
  | Json.obj kvs => Except.ok ((dict_get kvs key).getD dflt)
  | _ => Except.error "AttributeError: object has no attribute get"

/-- One `VideoStatus` dict as built by `transform_video_data` (lines 52-85).
After transformation the dict always has exactly these ten keys; only `id` is
forced to be a string (via `str(...)`), every other value is whatever JSON
value the API record held (or the documented default). -/
structure VideoStatus where
  id : String
  title : Json
  template_name : Json
  voice_name : Json
  status : Json
  created_at : Json
  completed_at : Json
  thumbnail_url : Json
  video_url : Json
  duration : Json

/-- Body of the `for v in api_videos` loop of `transform_video_data`: builds
one VideoStatus dict from one raw record.  The conditional expressions
`v.get(k) if v.get(k) is not None else None` are the identity on `v.get(k)`
with default `None`. -/
def transform_one (v : Json) : Except String VideoStatus := do
  let idv ← py_get v "id" (Json.str "")
  let title ← py_get v "title" (Json.str "Untitled")
  let template_name ← py_get v "template_name" (Json.str "Unknown Template")
  let voice_name ← py_get v "voice_name" (Json.str "Unknown Voice")
  let status ← py_get v "status" (Json.str "unknown")
  let created_at ← py_get v "created_at" (Json.str "")
  let completed_at ← py_get v "completed_at" Json.null
  let thumbnail_url ← py_get v "thumbnail_url" Json.null
  let video_url ← py_get v "video_url" Json.null
  let duration ← py_get v "duration" Json.null
  pure { id := py_str idv, title := title, template_name := template_name,
         voice_name := voice_name, status := status, created_at := created_at,
         completed_at := completed_at, thumbnail_url := thumbnail_url,
         video_url := video_url, duration := duration }

/-- Embedding of `transform_video_data` (lines 52-85): iterate over the raw
API value and build a VideoStatus dict per record; any raised `TypeError` or
`AttributeError` propagates to the caller. -/
def transform_video_data (api_videos : Json) : Except String (List VideoStatus) := do
  let items ← py_iter api_videos
  items.mapM transform_one

/-- The `ApiUsageStats` dict of `compute_api_usage_stats` (lines 88-118).
`remaining_quota` is a Python int that the source clamps with `max(_, 0)`;
`usage_percentage` is a float, modelled as an exact rational. -/
structure ApiUsageStats where
  total_videos : Nat
  completed_videos : Nat
  processing_videos : Nat
  failed_videos : Nat
  monthly_quota : Nat
  remaining_quota : Int
  usage_percentage : Rat
deriving DecidableEq, Repr

/-- CPython `round(q, 2)` on the values reached here: every value passed in
is an integral multiple of 1/10, where rounding to two decimal places is the
identity; stated via integer rounding of `q * 100`. -/
def py_round2 (q : Rat) : Rat := (round (q * 100) : Int) / 100

/-- Python `==` between a JSON-shaped value and a Python string: holds
exactly when the value is that string (no other JSON value compares equal to
a `str` in Python). -/
def json_eq_str : Json → String → Bool
  | Json.str s, t => s == t
  | _, _ => false

/-- Embedding of `compute_api_usage_stats` (lines 88-118).  The comparisons
`v.get("status") == "completed"` compare the stored JSON value against a
Python string. -/
def compute_api_usage_stats (videos : List VideoStatus) : ApiUsageStats :=
  let total := videos.length
  let completed := videos.countP (fun v => json_eq_str v.status "completed")
  let processing := videos.countP (fun v => json_eq_str v.status "processing")
  let failed := videos.countP (fun v => json_eq_str v.status "failed")
  let monthly_quota : Nat := 1000
  let remaining := max ((monthly_quota : Int) - (total : Int)) 0
  let usage_percentage : Rat :=
    if 0 < monthly_quota then ((total : Rat) / (monthly_quota : Rat)) * 100 else 0
  { total_videos := total, completed_videos := completed,
    processing_videos := processing, failed_videos := failed,
    monthly_quota := monthly_quota, remaining_quota := remaining,
    usage_percentage := py_round2 usage_percentage }

/-- Replacement for one character under `html.escape(_, quote=True)`. -/
def escape_char (c : Char) : String :=
  if c = '&' then "&amp;"
  else if c = '<' then "&lt;"
  else if c = '>' then "&gt;"
  else if c = '"' then "&quot;"
  else if c = '\x27' then "&#x27;"
  else String.singleton c

/-- CPython `html.escape(s, quote=True)`.  The library performs five
sequential `str.replace` passes (`&` first); since every pattern is a single
character and no replacement string contains a character replaced by a later
pass, that sequence equals this single character-wise pass. -/
def html_escape (s : String) : String :=
  String.join (s.data.map escape_char)

/-- The local helper `esc` of `generate_dashboard_html` (lines 135-136):
`html.escape(str(text))` unless the value is `None`, which becomes the empty
string. -/
def esc : Json → String
  | Json.null => ""
  | t => html_escape (py_str t)

/-- Python truthiness (`if v.get("thumbnail_url")`, `if v['completed_at']`):
`None`, `False`, `0`, the empty string and empty containers are falsy. -/
def py_truthy : Json → Bool
  | Json.null => false
  | Json.bool b => b
  | Json.num n => n != 0
  | Json.str s => s != ""
  | Json.arr xs => !xs.isEmpty
  | Json.obj kvs => !kvs.isEmpty

/-- Python `x.lower()`: defined on strings; on any other value the attribute
access raises `AttributeError` (this is the one place in
`generate_dashboard_html` that can raise, line 197). -/
def py_lower : Json → Except String String
  | Json.str s => Except.ok s.toLower
  | _ => Except.error "AttributeError: object has no attribute lower"

/-- CPython `str` of the float `usage_percentage`: every produced value is a
non-negative integral multiple of 1/10, printed with one fractional digit
(`str(0.0) = "0.0"`, `str(12.5) = "12.5"`). -/
def py_float_str (q : Rat) : String :=
  let tenths : Int := ⌊q * 10⌋
  toString (tenths / 10) ++ "." ++ toString (tenths.emod 10)

/-- The string `"\n".join(html_parts)` (line 230). -/
def join_lines : List String → String
  | [] => ""
  | [s] => s
  | s :: t :: rest => s ++ "\n" ++ join_lines (t :: rest)

/-- The source's `html_template_content` global (line 20). -/
def html_template_content : String := "</html>"

/-- The f-string on line 149: the meta refresh tag whose content is the
configured refresh interval in seconds. -/
def meta_refresh_tag (cfg : Config) : String :=
  "  <meta http-equiv=\x27refresh\x27 content=\x27" ++
    toString cfg.refresh_interval_seconds ++ "\x27>"

/-- The `dashboard_data` dict assembled by the refresh loop (lines 250-254). -/
structure DashboardData where
  videos : List VideoStatus
  api_usage : ApiUsageStats
  last_updated : String

/-- The table rows appended for one video (lines 195-222), including the
`status_class` selection and the thumbnail / video-link sub-templates. -/
def video_row (v : VideoStatus) : Except String (List String) := do
  let status_lower ← py_lower v.status
  let status_class :=
    if status_lower = "completed" then "status-completed"
    else if status_lower = "processing" then "status-processing"
    else if status_lower = "failed" then "status-failed"
    else ""
  let thumbnail_html :=
    if py_truthy v.thumbnail_url then
      "<img src=\x27" ++ esc v.thumbnail_url ++ "\x27 alt=\x27Thumbnail\x27 width=\x27120\x27>"
    else "N/A"
  let video_link_html :=
    if py_truthy v.video_url then
      "<a href=\x27" ++ esc v.video_url ++ "\x27 target=\x27_blank\x27>Watch</a>"
    else "N/A"
  pure [
    "      <tr>",
    "        <td>" ++ esc v.title ++ "</td>",
    "        <td>" ++ esc v.template_name ++ "</td>",
    "        <td>" ++ esc v.voice_name ++ "</td>",
    "        <td class=\x27" ++ status_class ++ "\x27>" ++ esc v.status ++ "</td>",
    "        <td>" ++ esc v.created_at ++ "</td>",
    "        <td>" ++ (if py_truthy v.completed_at then esc v.completed_at else "N/A") ++ "</td>",
    "        <td>" ++ (if py_truthy v.duration then esc v.duration else "N/A") ++ "</td>",
    "        <td>" ++ thumbnail_html ++ "</td>",
    "        <td>" ++ video_link_html ++ "</td>",
    "      </tr>"]

/-- The complete `html_parts` list of `generate_dashboard_html`
(lines 144-228), given the already-built per-video row blocks: the fixed
head, the interpolated stats lines, the table rows, and the tail ending in
`html_template_content`.  Literal CSS braces and single quotes appear as
their character escapes.  Integer stat fields pass through `esc` as
`html.escape(str(n))`, which is spelled `html_escape (toString n)` here. -/
def dashboard_parts (cfg : Config) (dd : DashboardData) (rows : List (List String)) :
    List String :=
  let au := dd.api_usage
  [
    "<!DOCTYPE html>",
    "<html lang=\x27en\x27>",
    "<head>",
    "  <meta charset=\x27UTF-8\x27>",
    meta_refresh_tag cfg,
    "  <meta name=\x27viewport\x27 content=\x27width=device-width, initial-scale=1.0\x27>",
    "  <title>HeyGen Video Dashboard</title>",
    "  <style>",
    "    body \x7b font-family: Arial, sans-serif; margin: 20px; background: #f9f9f9; \x7d",
    "    h1 \x7b color: #333; \x7d",
    "    table \x7b border-collapse: collapse; width: 100%; background: white; \x7d",
    "    th, td \x7b border: 1px solid #ccc; padding: 8px; text-align: left; \x7d",
    "    th \x7b background-color: #eee; \x7d",
    "    tr:nth-child(even) \x7b background-color: #f2f2f2; \x7d",
    "    .status-completed \x7b color: green; font-weight: bold; \x7d",
    "    .status-processing \x7b color: orange; font-weight: bold; \x7d",
    "    .status-failed \x7b color: red; font-weight: bold; \x7d",
    "  </style>",
    "</head>",
    "<body>",
    "  <h1>HeyGen Video Dashboard</h1>",
    "  <p>Last Updated: " ++ html_escape dd.last_updated ++ "</p>",
    "  <h2>API Usage Stats</h2>",
    "  <ul>",
    "    <li>Total Videos: " ++ html_escape (toString au.total_videos) ++ "</li>",
    "    <li>Completed Videos: " ++ html_escape (toString au.completed_videos) ++ "</li>",
    "    <li>Processing Videos: " ++ html_escape (toString au.processing_videos) ++ "</li>",
    "    <li>Failed Videos: " ++ html_escape (toString au.failed_videos) ++ "</li>",
    "    <li>Monthly Quota: " ++ html_escape (toString au.monthly_quota) ++ "</li>",
    "    <li>Remaining Quota: " ++ html_escape (toString au.remaining_quota) ++ "</li>",
    "    <li>Usage Percentage: " ++ html_escape (py_float_str au.usage_percentage) ++ "%</li>",
    "  </ul>",
    "  <h2>Videos</h2>",
    "  <table>",
    "    <thead>",
    "      <tr>",
    "        <th>Title</th>",
    "        <th>Template</th>",
    "        <th>Voice</th>",
    "        <th>Status</th>",
    "        <th>Created At</th>",
    "        <th>Completed At</th>",
    "        <th>Duration</th>",
    "        <th>Thumbnail</th>",
    "        <th>Video Link</th>",
    "      </tr>",
    "    </thead>",
    "    <tbody>"] ++ rows.flatten ++ [
    "    </tbody>",
    "  </table>",
    html_template_content]

/-- Embedding of `generate_dashboard_html` (lines 121-230): build the rows
(where the only possible exception, `.lower()` on a non-string status, can
arise), then join the full `html_parts` list with newlines. -/
def generate_dashboard_html (cfg : Config) (dd : DashboardData) : Except String String :=
  match dd.videos.mapM video_row with
  | Except.error e => Except.error e
  | Except.ok rows => Except.ok (join_lines (dashboard_parts cfg dd rows))

/-- Body of the `try` block of one iteration of
`refresh_dashboard_periodically` (lines 241-263): fetch, transform, compute
stats, assemble `dashboard_data` with the cycle timestamp, render.  The
result is the html that the cycle would publish; an error is the exception
reaching the `except` clause. -/
def refresh_cycle_body (cfg : Config) (req : RequestOutcome) (now : String) :
    Except String String := do
  let api_videos := fetch_videos req
  let videos ← transform_video_data api_videos
  let api_usage := compute_api_usage_stats videos
  generate_dashboard_html cfg
    { videos := videos, api_usage := api_usage, last_updated := now }

/-- Effect of one full iteration of the refresh loop on the cached
`dashboard_html` (lines 240-265): on success the cycle publishes the new html
under the lock; the `except` clause only logs, leaving the cache unchanged. -/
def refresh_cycle (cfg : Config) (cache : String) (req : RequestOutcome)
    (now : String) : String :=
  match refresh_cycle_body cfg req now with
  | Except.ok new_html => new_html
  | Except.error _ => cache

/-- Running the refresh loop over a whole schedule of per-cycle environments
(request outcome and wall-clock string), returning the final cache value. -/
def refresh_loop (cfg : Config) (cache : String) :
    List (RequestOutcome × String) → String
  | [] => cache
  | (req, now) :: rest => refresh_loop cfg (refresh_cycle cfg cache req now) rest

/-- An HTTP response as assembled by `DashboardRequestHandler.do_GET`
(status line, Content-type header, body bytes). -/
structure HttpResponse where
  status : Nat
  content_type : String
  body : String
deriving DecidableEq, Repr

/-- The fallback document of line 277 (`dashboard_html or "..."`). -/
def loading_fallback_html : String :=
  "<html><body><h1>Loading dashboard...</h1></body></html>"

/-- The initial value `dashboard_html` is given under `__main__`
(lines 300-301), before the refresh thread starts. -/
def initial_dashboard_html : String :=
  "<html><body><h1>Loading dashboard data, please wait...</h1></body></html>"

/-- Embedding of `DashboardRequestHandler.do_GET` (lines 271-287) as a
function of the request path and the current cached `dashboard_html`.  The
expression `dashboard_html or placeholder` substitutes the placeholder
exactly when the cached string is empty (falsy). -/
def do_GET (path : String) (cache : String) : HttpResponse :=
  if path = "/" ∨ path = "/index.html" then
    { status := 200,
      content_type := "text/html; charset=utf-8",
      body := if cache = "" then loading_fallback_html else cache }
  else
    { status := 404,
      content_type := "text/plain; charset=utf-8",
      body := "404 Not Found" }

/-- One lock-protected operation on the shared `dashboard_html` slot: the
writer's `dashboard_html = new_html` (line 261) or a reader's
`content = dashboard_html` (line 277).  Because both sides take
`dashboard_html_lock` around the access, every interleaving of concurrent
publishes and reads linearizes to a sequence of these atomic operations. -/
inductive CacheOp where
  | publish (s : String)
  | read
deriving DecidableEq, Repr

/-- Run a linearized sequence of cache operations from a given cache value,
collecting in order the value each read returned. -/
def cache_run (cache : String) : List CacheOp → List String
  | [] => []
  | CacheOp.publish s :: rest => cache_run s rest
  | CacheOp.read :: rest => cache :: cache_run cache rest

/-- Observable actions of the scheduler thread, in program order: the single
`fetch_videos()` call of a cycle (line 243), the publish under the lock
(line 261) or the logging of a failed cycle (line 265), and the
`time.sleep(refresh_interval_seconds)` (line 267). -/
inductive SchedEvent where
  | fetch
  | publish (html : String)
  | cycle_failed (msg : String)
  | sleep (seconds : Nat)
deriving DecidableEq, Repr

/-- The events of one iteration of the `while True` loop of
`refresh_dashboard_periodically` (lines 240-267): exactly one fetch, then a
publish or a failure, then the unconditional full-interval sleep. -/
def cycle_events (cfg : Config) (req : RequestOutcome) (now : String) :
    List SchedEvent :=
  SchedEvent.fetch ::
    ((match refresh_cycle_body cfg req now with
      | Except.ok h => [SchedEvent.publish h]
      | Except.error e => [SchedEvent.cycle_failed e]) ++
      [SchedEvent.sleep cfg.refresh_interval_seconds])

/-- Event trace of the refresh loop across a schedule of per-cycle
environments. -/
def loop_events (cfg : Config) : List (RequestOutcome × String) → List SchedEvent
  | [] => []
  | (req, now) :: rest => cycle_events cfg req now ++ loop_events cfg rest

/-- Traces of the shape (fetch, non-fetch cycle work, full-interval sleep)*:
each cycle invokes the DataSource exactly once and sleeps the whole interval
before the next cycle's fetch. -/
inductive Cadenced (interval : Nat) : List SchedEvent → Prop
  | nil : Cadenced interval []
  | cycle (mid rest : List SchedEvent) (hmid : SchedEvent.fetch ∉ mid)
      (hrest : Cadenced interval rest) :
      Cadenced interval (SchedEvent.fetch :: mid ++ SchedEvent.sleep interval :: rest)

/-- C2: for every linearization of lock-protected publish and read
operations on the `dashboard_html` slot, every value a read returns is either
the value the slot held at the start or the exact string stored by some
single publish in the sequence — never a mixture. -/
theorem no_partial_reads (init : String) (ops : List CacheOp) (r : String)
    (h : r ∈ cache_run init ops) :
    r = init ∨ CacheOp.publish r ∈ ops := by
  induction ops generalizing init with
  | nil => cases h
  | cons op rest ih =>
    cases op with
    | publish s =>
        simp only [cache_run] at h
        rcases ih s h with rfl | hm
        · exact Or.inr (List.mem_cons_self _ _)
        · exact Or.inr (List.mem_cons_of_mem _ hm)
    | read =>
        simp only [cache_run] at h
        rcases List.mem_cons.mp h with rfl | h2
        · exact Or.inl rfl
        · rcases ih init h2 with rfl | hm
          · exact Or.inl rfl
          · exact Or.inr (List.mem_cons_of_mem _ hm)

/-- Witness for C2 at a concrete trace: a read interleaved after a publish
returns a published value or the initial one. -/
theorem no_partial_reads_witness :
    "a" = "init" ∨ CacheOp.publish "a" ∈ [CacheOp.publish "a", CacheOp.read] :=
  no_partial_reads "init" [CacheOp.publish "a", CacheOp.read] "a"
    (by simp [cache_run])

/-- C4: `GET /` and `GET /index.html` answer 200 with content type
`text/html; charset=utf-8` and the current artifact (or the placeholder when
none is cached); every other path answers 404 with content type
`text/plain; charset=utf-8` and body exactly `404 Not Found`. -/
theorem path_routing (path cache : String) :
    (path = "/" ∨ path = "/index.html" →
      do_GET path cache =
        { status := 200, content_type := "text/html; charset=utf-8",
          body := if cache = "" then loading_fallback_html else cache }) ∧
    (path ≠ "/" → path ≠ "/index.html" →
      do_GET path cache =
        { status := 404, content_type := "text/plain; charset=utf-8",
          body := "404 Not Found" }) := by
  constructor
  · intro h
    unfold do_GET
    rw [if_pos h]
  · intro h1 h2
    unfold do_GET
    rw [if_neg (by tauto)]

/-- Witness for C4 at concrete paths. -/
theorem path_routing_witness :
    do_GET "/" "ART" =
      { status := 200, content_type := "text/html; charset=utf-8",
        body := if "ART" = "" then loading_fallback_html else "ART" } ∧
    do_GET "/favicon.ico" "ART" =
      { status := 404, content_type := "text/plain; charset=utf-8",
        body := "404 Not Found" } :=
  ⟨(path_routing "/" "ART").1 (Or.inl rfl),
   (path_routing "/favicon.ico" "ART").2 (by decide) (by decide)⟩

/-- C5: before any successful cycle has published, a GET of a root path
returns 200 with a fixed non-empty placeholder document: under `__main__`
the cache holds `initial_dashboard_html`, and for the module-level initial
value `""` the handler substitutes `loading_fallback_html`. -/
theorem initial_state_placeholder :
    do_GET "/" initial_dashboard_html =
      { status := 200, content_type := "text/html; charset=utf-8",
        body := initial_dashboard_html } ∧
    do_GET "/index.html" initial_dashboard_html =
      { status := 200, content_type := "text/html; charset=utf-8",
        body := initial_dashboard_html } ∧
    initial_dashboard_html ≠ "" ∧
    do_GET "/" "" =
      { status := 200, content_type := "text/html; charset=utf-8",
        body := loading_fallback_html } ∧
    do_GET "/index.html" "" =
      { status := 200, content_type := "text/html; charset=utf-8",
        body := loading_fallback_html } ∧
    loading_fallback_html ≠ "" := by
  refine ⟨?_, ?_, by decide, ?_, ?_, by decide⟩ <;> decide

/-- Helper for C10: a single status value satisfies at most one of the three
counted comparisons, so the three counts sum to at most the list length. -/
theorem status_counts_le (videos : List VideoStatus) :
    videos.countP (fun v => json_eq_str v.status "completed") +
      videos.countP (fun v => json_eq_str v.status "processing") +
      videos.countP (fun v => json_eq_str v.status "failed") ≤ videos.length := by
  induction videos with
  | nil => simp
  | cons v vs ih =>
      simp only [List.countP_cons, List.length_cons]
      have hone :
          (if json_eq_str v.status "completed" = true then 1 else 0) +
            ((if json_eq_str v.status "processing" = true then 1 else 0) +
              (if json_eq_str v.status "failed" = true then 1 else 0)) ≤ 1 := by
        cases hs : v.status with
        | str s =>
            simp only [json_eq_str, beq_iff_eq]
            by_cases h1 : s = "completed" <;> by_cases h2 : s = "processing" <;>
              by_cases h3 : s = "failed" <;> simp_all
        | null => simp [json_eq_str]
        | bool b => simp [json_eq_str]
        | num n => simp [json_eq_str]
        | arr xs => simp [json_eq_str]
        | obj kvs => simp [json_eq_str]
      omega

/-- C10: `compute_api_usage_stats` reports `total_videos` equal to the list
length, `remaining_quota` equal to `max(1000 - total, 0)` (hence never
negative), and completed + processing + failed bounded by the total. -/
theorem api_usage_stats_sound (videos : List VideoStatus) :
    (compute_api_usage_stats videos).total_videos = videos.length ∧
    (compute_api_usage_stats videos).remaining_quota =
      max (1000 - (videos.length : Int)) 0 ∧
    0 ≤ (compute_api_usage_stats videos).remaining_quota ∧
    (compute_api_usage_stats videos).completed_videos +
        (compute_api_usage_stats videos).processing_videos +
        (compute_api_usage_stats videos).failed_videos ≤
      (compute_api_usage_stats videos).total_videos := by
  refine ⟨rfl, rfl, ?_, ?_⟩
  · exact le_max_right _ _
  · exact status_counts_le videos

/-- Counterexample for C7 as stated: a response whose HTTP status is not 2xx
(here 300, which `raise_for_status` does not treat as an error) but whose
body is a dict with a `videos` key makes `fetch_videos` return that value,
not the empty list. -/
theorem fetch_non2xx_counterexample :
    fetch_videos (RequestOutcome.response 300
        (Except.ok (Json.obj [("videos", Json.arr [Json.num 7])]))) =
      Json.arr [Json.num 7] ∧
    Json.arr [Json.num 7] ≠ Json.arr [] := by
  refine ⟨rfl, ?_⟩
  simp

/-- Shape condition of the final `else` of `fetch_videos`: the decoded value
is neither a list nor a dict containing a `videos` key. -/
def lacks_videos_key (j : Json) : Bool :=
  match j with
  | Json.arr _ => false
  | Json.obj kvs => (dict_get kvs "videos").isNone
  | _ => true

/-- C7 (amended): `fetch_videos` never propagates an exception (it is a total
function of the request outcome), and it returns the empty list on a raised
request error, on a 4xx or 5xx status, on a JSON decoding error, and on a
decoded value that is neither a list nor a dict with a `videos` key — the
same value a successful response with zero videos produces. -/
theorem fetch_failures_return_empty :
    (∀ msg, fetch_videos (RequestOutcome.raised msg) = Json.arr []) ∧
    (∀ status body, 400 ≤ status → status < 600 →
      fetch_videos (RequestOutcome.response status body) = Json.arr []) ∧
    (∀ status e,
      fetch_videos (RequestOutcome.response status (Except.error e)) = Json.arr []) ∧
    (∀ status j, lacks_videos_key j = true →
      fetch_videos (RequestOutcome.response status (Except.ok j)) = Json.arr []) ∧
    fetch_videos (RequestOutcome.response 200 (Except.ok (Json.arr []))) = Json.arr [] := by
  refine ⟨fun msg => rfl, ?_, ?_, ?_, rfl⟩
  · intro status body h1 h2
    have hrs : raise_for_status status = Except.error "HTTPError" := by
      simp [raise_for_status, h1, h2]
    simp only [fetch_videos, hrs]
    rfl
  · intro status e
    by_cases h : 400 ≤ status ∧ status < 600
    · have hrs : raise_for_status status = Except.error "HTTPError" := by
        simp [raise_for_status, h]
      simp only [fetch_videos, hrs]
      rfl
    · have hrs : raise_for_status status = Except.ok () := by
        simp [raise_for_status, h]
      simp only [fetch_videos, hrs]
      rfl
  · intro status j hj
    by_cases h : 400 ≤ status ∧ status < 600
    · have hrs : raise_for_status status = Except.error "HTTPError" := by
        simp [raise_for_status, h]
      simp only [fetch_videos, hrs]
      rfl
    · have hrs : raise_for_status status = Except.ok () := by
        simp [raise_for_status, h]
      cases j with
      | arr xs => simp [lacks_videos_key] at hj
      | obj kvs =>
          simp only [lacks_videos_key, Option.isNone_iff_eq_none] at hj
          simp only [fetch_videos, hrs, bind, Except.bind, hj]
          rfl
      | null => simp only [fetch_videos, hrs]; rfl
      | bool b => simp only [fetch_videos, hrs]; rfl
      | num n => simp only [fetch_videos, hrs]; rfl
      | str s => simp only [fetch_videos, hrs]; rfl

/-- Witness for C7 (amended) at concrete failing requests. -/
theorem fetch_failures_return_empty_witness :
    fetch_videos (RequestOutcome.raised "ConnectionError") = Json.arr [] ∧
    fetch_videos (RequestOutcome.response 404 (Except.ok Json.null)) = Json.arr [] ∧
    fetch_videos (RequestOutcome.response 200 (Except.error "JSONDecodeError")) =
      Json.arr [] ∧
    fetch_videos (RequestOutcome.response 200 (Except.ok (Json.num 3))) = Json.arr [] :=
  ⟨fetch_failures_return_empty.1 "ConnectionError",
   fetch_failures_return_empty.2.1 404 (Except.ok Json.null) (by decide) (by decide),
   fetch_failures_return_empty.2.2.1 200 "JSONDecodeError",
   fetch_failures_return_empty.2.2.2.1 200 (Json.num 3) rfl⟩

/-- C8: the renderer is a pure, deterministic function of the dashboard data
and the configured refresh interval — two invocations whose configurations
agree on `refresh_interval_seconds` produce identical results on every input,
whatever else differs between the invocations' configurations. -/
theorem renderer_deterministic (c1 c2 : Config) (dd : DashboardData)
    (h : c1.refresh_interval_seconds = c2.refresh_interval_seconds) :
    generate_dashboard_html c1 dd = generate_dashboard_html c2 dd := by
  simp only [generate_dashboard_html, dashboard_parts, meta_refresh_tag, h]

/-- A second configuration differing from the default in everything except
the refresh interval. -/
def altConfig : Config where
  api_base_url := "https://other.example.net"
  list_videos_endpoint := "/v2/videos"
  video_status_endpoint := "/v2/status"
  refresh_interval_seconds := 5 * 60

/-- Witness for C8 at concrete distinct configurations and concrete data. -/
theorem renderer_deterministic_witness :
    generate_dashboard_html defaultConfig
        { videos := [], api_usage := compute_api_usage_stats [],
          last_updated := "2024-01-01 00:00:00 UTC" } =
      generate_dashboard_html altConfig
        { videos := [], api_usage := compute_api_usage_stats [],
          last_updated := "2024-01-01 00:00:00 UTC" } :=
  renderer_deterministic defaultConfig altConfig
    { videos := [], api_usage := compute_api_usage_stats [],
      last_updated := "2024-01-01 00:00:00 UTC" } rfl

/-- Helper for C9: joining lines keeps every element of the list as a
contiguous substring of the result. -/
theorem join_lines_mem (a : String) (l : List String) (h : a ∈ l) :
    ∃ pre post, join_lines l = pre ++ a ++ post := by
  induction l with
  | nil => cases h
  | cons x rest ih =>
      rcases List.mem_cons.mp h with rfl | hrest
      · cases rest with
        | nil => exact ⟨"", "", by simp [join_lines]⟩
        | cons y t =>
            refine ⟨"", "\n" ++ join_lines (y :: t), ?_⟩
            simp [join_lines, String.append_assoc]
      · cases rest with
        | nil => cases hrest
        | cons y t =>
            obtain ⟨pre, post, hp⟩ := ih hrest
            refine ⟨x ++ "\n" ++ pre, post, ?_⟩
            simp [join_lines, hp, String.append_assoc]

/-- C9: every successfully rendered artifact contains, as one of its lines,
the meta refresh tag whose content value is the configured refresh interval
in seconds; the tag comes from the renderer, not the HTTP layer. -/
theorem artifact_contains_refresh_meta (cfg : Config) (dd : DashboardData)
    (out : String) (h : generate_dashboard_html cfg dd = Except.ok out) :
    meta_refresh_tag cfg =
      "  <meta http-equiv=\x27refresh\x27 content=\x27" ++
        toString cfg.refresh_interval_seconds ++ "\x27>" ∧
    ∃ pre post, out = pre ++ meta_refresh_tag cfg ++ post := by
  refine ⟨rfl, ?_⟩
  unfold generate_dashboard_html at h
  cases hm : dd.videos.mapM video_row with
  | error e => rw [hm] at h; cases h
  | ok rows =>
      rw [hm] at h
      obtain rfl : join_lines (dashboard_parts cfg dd rows) = out :=
        Except.ok.inj h
      exact join_lines_mem _ _ (by simp [dashboard_parts])

/-- Witness for C9 at the default configuration and concrete empty data. -/
theorem artifact_contains_refresh_meta_witness :
    meta_refresh_tag defaultConfig =
      "  <meta http-equiv=\x27refresh\x27 content=\x27" ++
        toString defaultConfig.refresh_interval_seconds ++ "\x27>" ∧
    ∃ pre post,
      join_lines (dashboard_parts defaultConfig
          { videos := [], api_usage := compute_api_usage_stats [],
            last_updated := "2024-01-01 00:00:00 UTC" } []) =
        pre ++ meta_refresh_tag defaultConfig ++ post :=
  artifact_contains_refresh_meta defaultConfig
    { videos := [], api_usage := compute_api_usage_stats [],
      last_updated := "2024-01-01 00:00:00 UTC" } _ rfl

/-- Counterexample for C1 as stated: cycle N-1 succeeds (fetch returns an
empty video list, an artifact is published), cycle N's fetch raises a
connection error — yet the cached artifact after cycle N differs from cycle
N-1's artifact, because `fetch_videos` swallows the error and the cycle
publishes a freshly rendered zero-video dashboard with a new timestamp. -/
theorem stale_on_fetch_failure_counterexample :
    (∃ h1, refresh_cycle_body defaultConfig
        (RequestOutcome.response 200 (Except.ok (Json.arr [])))
        "2024-01-01 00:00:00 UTC" = Except.ok h1) ∧
    refresh_cycle defaultConfig
        (refresh_cycle defaultConfig ""
          (RequestOutcome.response 200 (Except.ok (Json.arr [])))
          "2024-01-01 00:00:00 UTC")
        (RequestOutcome.raised "ConnectionError") "2024-01-01 00:05:00 UTC" ≠
      refresh_cycle defaultConfig ""
        (RequestOutcome.response 200 (Except.ok (Json.arr [])))
        "2024-01-01 00:00:00 UTC" := by
  refine ⟨⟨_, rfl⟩, ?_⟩
  set_option maxRecDepth 100000 in decide

/-- C1 (amended): when cycle N's fetch fails, `fetch_videos` returns the
empty list instead of raising, so cycle N does not abort: it renders the
zero-video dashboard with its own timestamp and publishes it over the
previous artifact, whatever that was. -/
theorem fetch_failure_publishes_empty_dashboard (cfg : Config) (cache : String)
    (req : RequestOutcome) (now : String) (h : fetch_videos req = Json.arr []) :
    ∃ new_html,
      generate_dashboard_html cfg
          { videos := [], api_usage := compute_api_usage_stats [],
            last_updated := now } = Except.ok new_html ∧
      refresh_cycle cfg cache req now = new_html := by
  refine ⟨_, rfl, ?_⟩
  unfold refresh_cycle refresh_cycle_body
  rw [h]
  rfl

/-- Witness for C1 (amended) at a concrete raised fetch over a concrete
previously published cache value. -/
theorem fetch_failure_publishes_empty_dashboard_witness :
    ∃ new_html,
      generate_dashboard_html defaultConfig
          { videos := [], api_usage := compute_api_usage_stats [],
            last_updated := "2024-01-01 00:05:00 UTC" } = Except.ok new_html ∧
      refresh_cycle defaultConfig "PREVIOUS ARTIFACT"
          (RequestOutcome.raised "ConnectionError") "2024-01-01 00:05:00 UTC" =
        new_html :=
  fetch_failure_publishes_empty_dashboard defaultConfig "PREVIOUS ARTIFACT"
    (RequestOutcome.raised "ConnectionError") "2024-01-01 00:05:00 UTC" rfl

/-- C3: when the body of a refresh cycle raises (transformation, statistics
or rendering), the cycle leaves the cached artifact untouched, logs the
failure and still reaches the sleep that leads to the next scheduled
cycle. -/
theorem failed_cycle_preserves_cache (cfg : Config) (cache : String)
    (req : RequestOutcome) (now : String) (e : String)
    (h : refresh_cycle_body cfg req now = Except.error e) :
    refresh_cycle cfg cache req now = cache ∧
    cycle_events cfg req now =
      [SchedEvent.fetch, SchedEvent.cycle_failed e,
       SchedEvent.sleep cfg.refresh_interval_seconds] := by
  constructor
  · unfold refresh_cycle
    rw [h]
  · unfold cycle_events
    rw [h]
    rfl

/-- Witness for C3: a fetched list containing a non-dict record makes the
transformation raise, and the concrete cycle keeps the previous cache. -/
theorem failed_cycle_preserves_cache_witness :
    refresh_cycle defaultConfig "PREVIOUS ARTIFACT"
        (RequestOutcome.response 200 (Except.ok (Json.arr [Json.num 1])))
        "2024-01-01 00:05:00 UTC" = "PREVIOUS ARTIFACT" ∧
    cycle_events defaultConfig
        (RequestOutcome.response 200 (Except.ok (Json.arr [Json.num 1])))
        "2024-01-01 00:05:00 UTC" =
      [SchedEvent.fetch,
       SchedEvent.cycle_failed "AttributeError: object has no attribute get",
       SchedEvent.sleep defaultConfig.refresh_interval_seconds] :=
  failed_cycle_preserves_cache defaultConfig "PREVIOUS ARTIFACT"
    (RequestOutcome.response 200 (Except.ok (Json.arr [Json.num 1])))
    "2024-01-01 00:05:00 UTC" "AttributeError: object has no attribute get" rfl

/-- C6: the default refresh interval is 300 seconds, and every trace of the
refresh loop consists of cycles that each invoke the DataSource exactly once
and end with a full-interval sleep before the next cycle's fetch, whether
the cycle published or failed. -/
theorem cycle_cadence :
    defaultConfig.refresh_interval_seconds = 300 ∧
    ∀ (cfg : Config) (inputs : List (RequestOutcome × String)),
      Cadenced cfg.refresh_interval_seconds (loop_events cfg inputs) := by
  refine ⟨rfl, fun cfg inputs => ?_⟩
  induction inputs with
  | nil => exact Cadenced.nil
  | cons p rest ih =>
      obtain ⟨req, now⟩ := p
      show Cadenced _ (cycle_events cfg req now ++ loop_events cfg rest)
      cases hb : refresh_cycle_body cfg req now with
      | ok html =>
          have hsplit : cycle_events cfg req now ++ loop_events cfg rest =
              SchedEvent.fetch :: [SchedEvent.publish html] ++
                SchedEvent.sleep cfg.refresh_interval_seconds ::
                  loop_events cfg rest := by
            simp [cycle_events, hb]
          rw [hsplit]
          exact Cadenced.cycle _ _ (by simp) ih
      | error e =>
          have hsplit : cycle_events cfg req now ++ loop_events cfg rest =
              SchedEvent.fetch :: [SchedEvent.cycle_failed e] ++
                SchedEvent.sleep cfg.refresh_interval_seconds ::
                  loop_events cfg rest := by
            simp [cycle_events, hb]
          rw [hsplit]
          exact Cadenced.cycle _ _ (by simp) ih
